import Mathlib

/-!
Verification of the data-access layer (`Database` in `src/backend.py`) of the
Pharmaceutical-Inventory-Management repository.

The Python code talks to an external MySQL connection pool.  We embed it
shallowly: every external interaction (acquiring a pooled connection, creating
a cursor, executing a statement, fetching result sets, errors raised by
`close()`) is decided by an explicit environment record, and each operation
returns its result together with a trace of observable events (connection
checkout, cursor open/close, statement execution, result-set advancement,
sleeping).  Python exceptions become an `Exc` value carried in `Except`;
`except` / `finally` blocks become explicit control flow, translated clause by
clause from `backend.py`.
-/

deriving instance DecidableEq for Except

namespace Backend

/-- A database value appearing in a row (the dictionary-cursor rows of
`fetch` map column names to values). -/
inductive DBValue where
  | intV : Int → DBValue
  | strV : String → DBValue
  | nullV : DBValue
deriving DecidableEq, Repr

/-- One row of a result set, as returned by a dictionary cursor: a mapping
from column name to value. -/
abbrev Row := List (String × DBValue)

/-- A Python exception, classified the way `backend.py` classifies it:
`mysql.connector.errors.InterfaceError` (the transient connectivity error
caught by `fetch`'s first `except` clause) versus any other `Exception`.
The `Nat` tag distinguishes individual exception objects. -/
inductive Exc where
  | interfaceError : Nat → Exc
  | otherError : Nat → Exc
deriving DecidableEq, Repr

/-- Whether the exception is caught by `except db_errors.InterfaceError`. -/
def Exc.isInterface : Exc → Bool
  | .interfaceError _ => true
  | .otherError _ => false

/-- Observable events of one operation: pool checkout (`getConn`),
`conn.cursor(...)` (`openCursor`), `cursor.execute(sql, params)`
(`execQuery`), a call to `cursor.nextset()` (`nextSet`), `cursor.close()`
(`closeCursor`), `conn.close()` — which returns the pooled connection —
(`closeConn`), and `time.sleep` with its duration in milliseconds. -/
inductive Ev where
  | getConn : Nat → Ev
  | openCursor : Nat → Ev
  | execQuery : Nat → String → List DBValue → Ev
  | nextSet : Nat → Ev
  | closeCursor : Nat → Ev
  | closeConn : Nat → Ev
  | sleep : Nat → Ev
deriving DecidableEq, Repr

/-- Behaviour of one additional result set reached by `cursor.nextset()`
during the drain loop of `fetch`: the cursor's `with_rows` flag and the
outcome of `cursor.fetchall()` on it. -/
structure DrainStep where
  with_rows : Bool
  fetchRes : Except Exc (List Row)
deriving DecidableEq, Repr

/-- Behaviour of the cursor for one attempt of `fetch`:
outcome of `cursor.execute(query, params)`; the first result set's
`with_rows` flag and `fetchall()` outcome; the additional result sets the
drain loop's successful `nextset()` calls reach; and `drainEnd`, the
terminating `nextset()` call — `none` means it returns a falsy value ending
the loop, `some e` means it raises `e`. -/
structure CursorBehavior where
  execErr : Option Exc
  with_rows : Bool
  firstFetch : Except Exc (List Row)
  extras : List DrainStep
  drainEnd : Option Exc
deriving DecidableEq, Repr

/-- Environment for one attempt of `fetch`: the outcome of
`self.pool.get_connection()` (a connection id, or an exception), the outcome
of `conn.cursor(dictionary=True)`, and the exceptions (if any) raised by
`cursor.close()` and `conn.close()` during cleanup. -/
structure AttemptEnv where
  connRes : Except Exc Nat
  cursorRes : Except Exc CursorBehavior
  cursorCloseErr : Option Exc
  connCloseErr : Option Exc
deriving DecidableEq, Repr

/-- `try: ... except Exception: pass` around a close call: whatever the close
raises is swallowed. -/
def swallowClose (closeErr : Option Exc) : Unit :=
  match closeErr with
  | some _ => ()
  | none => ()

/-- The body of one iteration of `fetch`'s drain loop:
`try: if cursor.with_rows: _ = cursor.fetchall() except Exception: pass`.
Any exception from `fetchall` is swallowed. -/
def drainStepRun (s : DrainStep) : Except Exc Unit :=
  match (if s.with_rows then s.fetchRes.map (fun _ => ()) else Except.ok ()) with
  | .ok _ => .ok ()
  | .error _ => .ok ()

/-- The drain loop `while cursor.nextset(): ...` of `fetch`.  Each successful
`nextset()` (returning a truthy value) is one element of `steps` and emits a
`nextSet` event; the terminating call emits one too and either ends the loop
(`endRes = none`) or raises (`endRes = some e`).  Returns the loop's outcome
and the events emitted. -/
def drain (cid : Nat) : List DrainStep → Option Exc → Except Exc Unit × List Ev
  | [], endRes =>
      ((match endRes with
        | some e => Except.error e
        | none => Except.ok ()), [Ev.nextSet cid])
  | s :: rest, endRes =>
      match drainStepRun s with
      | .ok _ =>
          let t := drain cid rest endRes
          (t.1, Ev.nextSet cid :: t.2)
      | .error e => (.error e, [Ev.nextSet cid])

/-- Result of running the `try` body of one `fetch` attempt: the value
returned or exception raised, the events emitted, and which resources were
assigned (`conn` and `cursor` are `None` until assignment succeeds, and the
`except`/`finally` clauses close only assigned ones). -/
structure BodyOut where
  result : Except Exc (List Row)
  events : List Ev
  connOpened : Option Nat
  cursorOpened : Bool
deriving DecidableEq, Repr

/-- The `try` body of one attempt of `Database.fetch` (backend.py lines
57-73): acquire a connection, open a dictionary cursor, execute the
statement, read the first result set (`fetchall` if `with_rows` else `[]`),
then drain the remaining result sets. -/
def runBody (query : String) (params : List DBValue) (env : AttemptEnv) : BodyOut :=
  match env.connRes with
  | .error e => ⟨.error e, [], none, false⟩
  | .ok cid =>
    match env.cursorRes with
    | .error e => ⟨.error e, [Ev.getConn cid], some cid, false⟩
    | .ok cb =>
      match cb.execErr with
      | some e =>
          ⟨.error e, [Ev.getConn cid, Ev.openCursor cid, Ev.execQuery cid query params],
            some cid, true⟩
      | none =>
        match (if cb.with_rows then cb.firstFetch else Except.ok []) with
        | .error e =>
            ⟨.error e, [Ev.getConn cid, Ev.openCursor cid, Ev.execQuery cid query params],
              some cid, true⟩
        | .ok rows =>
            let d := drain cid cb.extras cb.drainEnd
            ⟨d.1.map (fun _ => rows),
              [Ev.getConn cid, Ev.openCursor cid, Ev.execQuery cid query params] ++ d.2,
              some cid, true⟩

/-- The cleanup sequence `if cursor: cursor.close()` then `if conn:
conn.close()`, each wrapped in `try ... except Exception: pass` (so close
errors are swallowed).  Appears verbatim in the `except` handlers and the
`finally` of `fetch`, and in the `finally` of `execute` and
`execute_and_get_id`. -/
def closeEvents (cursorCloseErr connCloseErr : Option Exc)
    (connOpened : Option Nat) (cursorOpened : Bool) : List Ev :=
  match connOpened with
  | none => []
  | some cid =>
      (if cursorOpened then
         let _ := swallowClose cursorCloseErr
         [Ev.closeCursor cid]
       else []) ++
      (let _ := swallowClose connCloseErr
       [Ev.closeConn cid])

/-- Outcome of one attempt of the retry loop: `done r` exits the loop with
result `r` (a `return` or an uncaught/re-raised exception), `retry e` is the
`continue` after a transient `InterfaceError` on a non-final attempt. -/
inductive AttemptOut where
  | done : Except Exc (List Row) → AttemptOut
  | retry : Exc → AttemptOut
deriving DecidableEq, Repr

/-- One iteration of `fetch`'s `for attempt in range(attempts)` loop,
with its `except db_errors.InterfaceError`, `except Exception` and `finally`
clauses.  On success the `finally` closes cursor and connection once.  On an
exception the matching `except` handler closes them, then (InterfaceError on
a non-final attempt) sleeps 0.2 s and continues — and the `finally` runs its
own close sequence again on every exit path. -/
def runAttempt (query : String) (params : List DBValue) (env : AttemptEnv)
    (isLast : Bool) : AttemptOut × List Ev :=
  let b := runBody query params env
  let closes := closeEvents env.cursorCloseErr env.connCloseErr b.connOpened b.cursorOpened
  match b.result with
  | .ok rows => (.done (.ok rows), b.events ++ closes)
  | .error e =>
      if e.isInterface then
        if isLast then
          (.done (.error e), b.events ++ closes ++ closes)
        else
          (.retry e, b.events ++ closes ++ [Ev.sleep 200] ++ closes)
      else
        (.done (.error e), b.events ++ closes ++ closes)

/-- The retry loop of `Database.fetch`: run each attempt in turn; a `retry`
outcome records the exception in `last_exc` and moves to the next attempt.
If the attempt list is exhausted, re-raise `last_exc` (or return `[]` when
none was recorded) — backend.py lines 122-126. -/
def fetchLoop (query : String) (params : List DBValue) :
    List AttemptEnv → Option Exc → Except Exc (List Row) × List Ev
  | [], lastExc =>
      ((match lastExc with
        | some e => Except.error e
        | none => Except.ok []), [])
  | env :: rest, _lastExc =>
      match runAttempt query params env rest.isEmpty with
      | (.done r, evs) => (r, evs)
      | (.retry e, evs) =>
          let t := fetchLoop query params rest (some e)
          (t.1, evs ++ t.2)

/-- `attempts = 2` in `Database.fetch`. -/
def attemptCount : Nat := 2

/-- `Database.fetch(query, params)`: two attempts, the first allowed to
retry on a transient `InterfaceError`.  `env1`/`env2` give the external
behaviour of the first and second attempt. -/
def fetch (query : String) (params : List DBValue) (env1 env2 : AttemptEnv) :
    Except Exc (List Row) × List Ev :=
  fetchLoop query params [env1, env2] none

/-- Environment for `Database.execute`: outcome of `get_connection()`, of
`conn.cursor()`, of `cursor.execute(query, params)`; `rowcount` is the value
of `cursor.rowcount` after a successful execute; plus the cleanup close
errors. -/
structure ExecEnv where
  connRes : Except Exc Nat
  cursorRes : Except Exc Unit
  execErr : Option Exc
  rowcount : Int
  cursorCloseErr : Option Exc
  connCloseErr : Option Exc
deriving DecidableEq, Repr

/-- `Database.execute(query, params)` (backend.py lines 128-152): acquire a
connection, open a cursor, execute the statement, return `cursor.rowcount`;
the `finally` closes cursor and connection (close errors swallowed) on every
exit path.  No retry. -/
def execute (query : String) (params : List DBValue) (env : ExecEnv) :
    Except Exc Int × List Ev :=
  match env.connRes with
  | .error e =>
      (.error e, closeEvents env.cursorCloseErr env.connCloseErr none false)
  | .ok cid =>
    match env.cursorRes with
    | .error e =>
        (.error e,
          [Ev.getConn cid] ++ closeEvents env.cursorCloseErr env.connCloseErr (some cid) false)
    | .ok _ =>
      match env.execErr with
      | some e =>
          (.error e,
            [Ev.getConn cid, Ev.openCursor cid, Ev.execQuery cid query params]
              ++ closeEvents env.cursorCloseErr env.connCloseErr (some cid) true)
      | none =>
          (.ok env.rowcount,
            [Ev.getConn cid, Ev.openCursor cid, Ev.execQuery cid query params]
              ++ closeEvents env.cursorCloseErr env.connCloseErr (some cid) true)

/-- Environment for `Database.execute_and_get_id`: outcomes of
`get_connection()`, `conn.cursor()`, the insert `cursor.execute(query,
params)`, the follow-up `cursor.execute("SELECT LAST_INSERT_ID()")`, and
`cursor.fetchone()` (whose value is `None` or a tuple of integers); plus the
cleanup close errors. -/
structure ExecIdEnv where
  connRes : Except Exc Nat
  cursorRes : Except Exc Unit
  insertErr : Option Exc
  idQueryErr : Option Exc
  fetchoneRes : Except Exc (Option (List Int))
  cursorCloseErr : Option Exc
  connCloseErr : Option Exc
deriving DecidableEq, Repr

/-- The literal follow-up statement issued by `execute_and_get_id`. -/
def lastInsertIdQuery : String := "SELECT LAST_INSERT_ID()"

/-- The tail of `execute_and_get_id`: `if row: return int(row[0])` /
`return None`, with Python truthiness (`None` and the empty tuple are
falsy). -/
def idFromRow (row : Option (List Int)) : Option Int :=
  match row with
  | some (v :: _) => some v
  | _ => none

/-- `Database.execute_and_get_id(query, params)` (backend.py lines 154-182):
on one connection, execute the insert, then `SELECT LAST_INSERT_ID()`, then
`fetchone()`.  `if row:` is Python truthiness: `None` and the empty tuple
are falsy and yield `None`; otherwise the result is `int(row[0])`.  The
`finally` closes cursor and connection on every exit path.  No retry. -/
def execute_and_get_id (query : String) (params : List DBValue) (env : ExecIdEnv) :
    Except Exc (Option Int) × List Ev :=
  match env.connRes with
  | .error e =>
      (.error e, closeEvents env.cursorCloseErr env.connCloseErr none false)
  | .ok cid =>
    match env.cursorRes with
    | .error e =>
        (.error e,
          [Ev.getConn cid] ++ closeEvents env.cursorCloseErr env.connCloseErr (some cid) false)
    | .ok _ =>
      let closes := closeEvents env.cursorCloseErr env.connCloseErr (some cid) true
      match env.insertErr with
      | some e =>
          (.error e,
            [Ev.getConn cid, Ev.openCursor cid, Ev.execQuery cid query params] ++ closes)
      | none =>
        let evs := [Ev.getConn cid, Ev.openCursor cid, Ev.execQuery cid query params,
                    Ev.execQuery cid lastInsertIdQuery []]
        match env.idQueryErr with
        | some e => (.error e, evs ++ closes)
        | none =>
          match env.fetchoneRes with
          | .error e => (.error e, evs ++ closes)
          | .ok row => (.ok (idFromRow row), evs ++ closes)

/-- Connection ids checked out of the pool in a trace. -/
def connsAcquired (t : List Ev) : List Nat :=
  t.filterMap fun ev =>
    match ev with
    | .getConn c => some c
    | _ => none

/-- Connection ids on which `conn.close()` was called in a trace. -/
def connsReleased (t : List Ev) : List Nat :=
  t.filterMap fun ev =>
    match ev with
    | .closeConn c => some c
    | _ => none

/-- Connection ids on which a cursor was opened in a trace. -/
def cursorsOpened (t : List Ev) : List Nat :=
  t.filterMap fun ev =>
    match ev with
    | .openCursor c => some c
    | _ => none

/-- Connection ids on which `cursor.close()` was called in a trace. -/
def cursorsClosed (t : List Ev) : List Nat :=
  t.filterMap fun ev =>
    match ev with
    | .closeCursor c => some c
    | _ => none

/-- Connection ids on which `cursor.nextset()` was called in a trace (one
entry per call, including the terminating one). -/
def nextSetCalls (t : List Ev) : List Nat :=
  t.filterMap fun ev =>
    match ev with
    | .nextSet c => some c
    | _ => none

/-! ### Concrete sample environments (used to evaluate the model) -/

/-- Sample SQL text used to evaluate the model on concrete inputs. -/
def sampleQuery : String := "SELECT * FROM Medicine"

/-- Sample write statement. -/
def updateQuery : String := "UPDATE Medicine SET Quantity = Quantity - 1"

/-- Sample insert statement. -/
def insertQuery : String := "INSERT INTO Sales_Order (Status) VALUES (1)"

/-- Sample column value. -/
def aspirin : String := "Aspirin"

/-- A sample first result set. -/
def sampleRows : List Row := [[("MedicineID", .intV 1), ("Name", .strV aspirin)]]

/-- Cursor behaviour of a fully successful statement with one extra result
set whose drain-time `fetchall` raises. -/
def cbSuccess : CursorBehavior :=
  ⟨none, true, .ok sampleRows, [⟨true, .error (.otherError 9)⟩], none⟩

/-- Attempt where everything succeeds. -/
def envSuccess : AttemptEnv := ⟨.ok 1, .ok cbSuccess, none, none⟩

/-- Attempt where `get_connection()` raises a transient `InterfaceError`. -/
def envTransient : AttemptEnv := ⟨.error (.interfaceError 5), .ok cbSuccess, none, none⟩

/-- A second transient attempt, with a distinct exception object. -/
def envTransient2 : AttemptEnv := ⟨.error (.interfaceError 6), .ok cbSuccess, none, none⟩

/-- Attempt where `cursor.execute` raises a non-transient statement error. -/
def envStatementError : AttemptEnv :=
  ⟨.ok 3, .ok ⟨some (.otherError 8), true, .ok [], [], none⟩, none, none⟩

/-- Cursor behaviour of a statement that produces no result set at all. -/
def cbNoRows : CursorBehavior := ⟨none, false, .ok [], [], none⟩

/-- Attempt for a statement with no result set. -/
def envNoRows : AttemptEnv := ⟨.ok 4, .ok cbNoRows, none, none⟩

/-- A successful write affecting 3 rows. -/
def eenvSample : ExecEnv := ⟨.ok 7, .ok (), none, 3, none, none⟩

/-- A successful write affecting 0 rows. -/
def eenvZero : ExecEnv := ⟨.ok 7, .ok (), none, 0, none, none⟩

/-- A write whose `cursor.execute` raises a transient `InterfaceError`. -/
def eenvTransient : ExecEnv := ⟨.ok 7, .ok (), some (.interfaceError 2), 3, none, none⟩

/-- An insert whose generated id is 42. -/
def ienvSample : ExecIdEnv := ⟨.ok 8, .ok (), none, none, .ok (some [42]), none, none⟩

/-- An insert for which `fetchone()` yields no row. -/
def ienvNoId : ExecIdEnv := ⟨.ok 8, .ok (), none, none, .ok none, none, none⟩

/-- An insert whose `cursor.execute` raises a transient `InterfaceError`. -/
def ienvTransient : ExecIdEnv :=
  ⟨.ok 8, .ok (), some (.interfaceError 3), none, .ok (some [42]), none, none⟩

/-! ### Basic lemmas about the embedding -/

/-- The drain-loop body swallows every exception: it always succeeds. -/
theorem drainStepRun_ok (s : DrainStep) : drainStepRun s = Except.ok () := by
  unfold drainStepRun
  split <;> rfl

/-- The drain loop emits one `nextSet` event per additional result set, plus
one for the terminating `nextset()` call. -/
theorem drain_events_eq (cid : Nat) (steps : List DrainStep) (endRes : Option Exc) :
    (drain cid steps endRes).2 = List.replicate (steps.length + 1) (Ev.nextSet cid) := by
  induction steps with
  | nil => rfl
  | cons s rest ih =>
      simp [drain, drainStepRun_ok, ih, List.replicate_succ]

/-- The drain loop's outcome is decided by the terminating `nextset()`
call alone: every per-set fetch error is swallowed. -/
theorem drain_fst (cid : Nat) (steps : List DrainStep) (endRes : Option Exc) :
    (drain cid steps endRes).1 =
      (match endRes with
       | some e => Except.error e
       | none => Except.ok ()) := by
  induction steps with
  | nil => rfl
  | cons s rest ih =>
      simp [drain, drainStepRun_ok, ih]

theorem connsAcquired_append (t1 t2 : List Ev) :
    connsAcquired (t1 ++ t2) = connsAcquired t1 ++ connsAcquired t2 :=
  List.filterMap_append t1 t2 _

theorem connsReleased_append (t1 t2 : List Ev) :
    connsReleased (t1 ++ t2) = connsReleased t1 ++ connsReleased t2 :=
  List.filterMap_append t1 t2 _

theorem cursorsOpened_append (t1 t2 : List Ev) :
    cursorsOpened (t1 ++ t2) = cursorsOpened t1 ++ cursorsOpened t2 :=
  List.filterMap_append t1 t2 _

theorem cursorsClosed_append (t1 t2 : List Ev) :
    cursorsClosed (t1 ++ t2) = cursorsClosed t1 ++ cursorsClosed t2 :=
  List.filterMap_append t1 t2 _

theorem connsAcquired_replicate_nextSet (n cid : Nat) :
    connsAcquired (List.replicate n (Ev.nextSet cid)) = [] := by
  simp [connsAcquired, List.filterMap_replicate]

theorem connsReleased_replicate_nextSet (n cid : Nat) :
    connsReleased (List.replicate n (Ev.nextSet cid)) = [] := by
  simp [connsReleased, List.filterMap_replicate]

theorem cursorsOpened_replicate_nextSet (n cid : Nat) :
    cursorsOpened (List.replicate n (Ev.nextSet cid)) = [] := by
  simp [cursorsOpened, List.filterMap_replicate]

theorem cursorsClosed_replicate_nextSet (n cid : Nat) :
    cursorsClosed (List.replicate n (Ev.nextSet cid)) = [] := by
  simp [cursorsClosed, List.filterMap_replicate]

/-- Which connection the try body of a `fetch` attempt assigned. -/
theorem runBody_connOpened (q : String) (p : List DBValue) (env : AttemptEnv) :
    (runBody q p env).connOpened =
      (match env.connRes with
       | .ok c => some c
       | .error _ => none) := by
  rcases env with ⟨connRes, cursorRes, c1, c2⟩
  cases connRes with
  | error e => rfl
  | ok cid =>
    cases cursorRes with
    | error e => rfl
    | ok cb =>
      rcases cb with ⟨execErr, wr, ff, extras, de⟩
      cases execErr with
      | some e => rfl
      | none =>
        simp only [runBody]
        cases h : (if wr then ff else Except.ok []) <;> rfl

/-- Whether the try body of a `fetch` attempt assigned a cursor. -/
theorem runBody_cursorOpened (q : String) (p : List DBValue) (env : AttemptEnv) :
    (runBody q p env).cursorOpened =
      (match env.connRes, env.cursorRes with
       | .ok _, .ok _ => true
       | _, _ => false) := by
  rcases env with ⟨connRes, cursorRes, c1, c2⟩
  cases connRes with
  | error e => rfl
  | ok cid =>
    cases cursorRes with
    | error e => rfl
    | ok cb =>
      rcases cb with ⟨execErr, wr, ff, extras, de⟩
      cases execErr with
      | some e => rfl
      | none =>
        simp only [runBody]
        cases h : (if wr then ff else Except.ok []) <;> rfl

/-- The try body checks out exactly the connection the pool handed it. -/
theorem connsAcquired_runBody (q : String) (p : List DBValue) (env : AttemptEnv) :
    connsAcquired (runBody q p env).events =
      (match env.connRes with
       | .ok c => [c]
       | .error _ => []) := by
  rcases env with ⟨connRes, cursorRes, c1, c2⟩
  cases connRes with
  | error e => rfl
  | ok cid =>
    cases cursorRes with
    | error e => rfl
    | ok cb =>
      rcases cb with ⟨execErr, wr, ff, extras, de⟩
      cases execErr with
      | some e => rfl
      | none =>
        simp only [runBody]
        cases h : (if wr then ff else Except.ok []) with
        | error e => rfl
        | ok rows =>
            simp [connsAcquired_append, drain_events_eq,
              connsAcquired_replicate_nextSet, connsAcquired]

/-- The try body never releases a connection (releases happen only in the
`except`/`finally` cleanup). -/
theorem connsReleased_runBody (q : String) (p : List DBValue) (env : AttemptEnv) :
    connsReleased (runBody q p env).events = [] := by
  rcases env with ⟨connRes, cursorRes, c1, c2⟩
  cases connRes with
  | error e => rfl
  | ok cid =>
    cases cursorRes with
    | error e => rfl
    | ok cb =>
      rcases cb with ⟨execErr, wr, ff, extras, de⟩
      cases execErr with
      | some e => rfl
      | none =>
        simp only [runBody]
        cases h : (if wr then ff else Except.ok []) with
        | error e => rfl
        | ok rows =>
            simp [connsReleased_append, drain_events_eq,
              connsReleased_replicate_nextSet, connsReleased]

/-- Cursor-open events of the try body. -/
theorem cursorsOpened_runBody (q : String) (p : List DBValue) (env : AttemptEnv) :
    cursorsOpened (runBody q p env).events =
      (match env.connRes, env.cursorRes with
       | .ok c, .ok _ => [c]
       | _, _ => []) := by
  rcases env with ⟨connRes, cursorRes, c1, c2⟩
  cases connRes with
  | error e => rfl
  | ok cid =>
    cases cursorRes with
    | error e => rfl
    | ok cb =>
      rcases cb with ⟨execErr, wr, ff, extras, de⟩
      cases execErr with
      | some e => rfl
      | none =>
        simp only [runBody]
        cases h : (if wr then ff else Except.ok []) with
        | error e => rfl
        | ok rows =>
            simp [cursorsOpened_append, drain_events_eq,
              cursorsOpened_replicate_nextSet, cursorsOpened]

/-- The try body never closes a cursor. -/
theorem cursorsClosed_runBody (q : String) (p : List DBValue) (env : AttemptEnv) :
    cursorsClosed (runBody q p env).events = [] := by
  rcases env with ⟨connRes, cursorRes, c1, c2⟩
  cases connRes with
  | error e => rfl
  | ok cid =>
    cases cursorRes with
    | error e => rfl
    | ok cb =>
      rcases cb with ⟨execErr, wr, ff, extras, de⟩
      cases execErr with
      | some e => rfl
      | none =>
        simp only [runBody]
        cases h : (if wr then ff else Except.ok []) with
        | error e => rfl
        | ok rows =>
            simp [cursorsClosed_append, drain_events_eq,
              cursorsClosed_replicate_nextSet, cursorsClosed]

/-- The try body never sleeps. -/
theorem sleep_not_mem_runBody (q : String) (p : List DBValue) (env : AttemptEnv)
    (n : Nat) : Ev.sleep n ∉ (runBody q p env).events := by
  rcases env with ⟨connRes, cursorRes, c1, c2⟩
  cases connRes with
  | error e => simp [runBody]
  | ok cid =>
    cases cursorRes with
    | error e => simp [runBody]
    | ok cb =>
      rcases cb with ⟨execErr, wr, ff, extras, de⟩
      cases execErr with
      | some e => simp [runBody]
      | none =>
        simp only [runBody]
        cases h : (if wr then ff else Except.ok []) with
        | error e => simp
        | ok rows =>
            simp only [drain_events_eq]
            intro hmem
            rcases List.mem_append.mp hmem with h1 | h2
            · simp at h1
            · exact absurd (List.eq_of_mem_replicate h2) (by simp)

theorem connsAcquired_closeEvents (c1 c2 : Option Exc) (co : Option Nat) (cu : Bool) :
    connsAcquired (closeEvents c1 c2 co cu) = [] := by
  cases co <;> cases cu <;> rfl

theorem connsReleased_closeEvents (c1 c2 : Option Exc) (co : Option Nat) (cu : Bool) :
    connsReleased (closeEvents c1 c2 co cu) =
      (match co with
       | some c => [c]
       | none => []) := by
  cases co <;> cases cu <;> rfl

theorem cursorsOpened_closeEvents (c1 c2 : Option Exc) (co : Option Nat) (cu : Bool) :
    cursorsOpened (closeEvents c1 c2 co cu) = [] := by
  cases co <;> cases cu <;> rfl

theorem cursorsClosed_closeEvents (c1 c2 : Option Exc) (co : Option Nat) (cu : Bool) :
    cursorsClosed (closeEvents c1 c2 co cu) =
      (match co, cu with
       | some c, true => [c]
       | _, _ => []) := by
  cases co <;> cases cu <;> rfl

theorem sleep_not_mem_closeEvents (c1 c2 : Option Exc) (co : Option Nat) (cu : Bool)
    (n : Nat) : Ev.sleep n ∉ closeEvents c1 c2 co cu := by
  cases co <;> cases cu <;> simp [closeEvents, swallowClose]

/-- `runAttempt` when the try body returns normally: the `finally` closes
cursor and connection once. -/
theorem runAttempt_ok (q : String) (p : List DBValue) (env : AttemptEnv)
    (isLast : Bool) (rows : List Row)
    (h : (runBody q p env).result = .ok rows) :
    runAttempt q p env isLast =
      (.done (.ok rows),
        (runBody q p env).events ++
          closeEvents env.cursorCloseErr env.connCloseErr
            (runBody q p env).connOpened (runBody q p env).cursorOpened) := by
  simp [runAttempt, h]

/-- `runAttempt` on a transient `InterfaceError` on a non-final attempt: the
handler closes cursor and connection, sleeps 0.2 s and continues, and the
`finally` runs its close sequence again. -/
theorem runAttempt_interface_notLast (q : String) (p : List DBValue)
    (env : AttemptEnv) (e : Exc)
    (h : (runBody q p env).result = .error e) (hi : e.isInterface = true) :
    runAttempt q p env false =
      (.retry e,
        (runBody q p env).events ++
          closeEvents env.cursorCloseErr env.connCloseErr
            (runBody q p env).connOpened (runBody q p env).cursorOpened ++
          [Ev.sleep 200] ++
          closeEvents env.cursorCloseErr env.connCloseErr
            (runBody q p env).connOpened (runBody q p env).cursorOpened) := by
  simp [runAttempt, h, hi]

/-- `runAttempt` on a transient `InterfaceError` on the final attempt:
re-raise after cleanup (handler closes, `finally` closes again). -/
theorem runAttempt_interface_last (q : String) (p : List DBValue)
    (env : AttemptEnv) (e : Exc)
    (h : (runBody q p env).result = .error e) (hi : e.isInterface = true) :
    runAttempt q p env true =
      (.done (.error e),
        (runBody q p env).events ++
          closeEvents env.cursorCloseErr env.connCloseErr
            (runBody q p env).connOpened (runBody q p env).cursorOpened ++
          closeEvents env.cursorCloseErr env.connCloseErr
            (runBody q p env).connOpened (runBody q p env).cursorOpened) := by
  simp [runAttempt, h, hi]

/-- `runAttempt` on a non-transient exception: re-raised immediately after
cleanup, on any attempt, with no sleep. -/
theorem runAttempt_other (q : String) (p : List DBValue) (env : AttemptEnv)
    (isLast : Bool) (e : Exc)
    (h : (runBody q p env).result = .error e) (hi : e.isInterface = false) :
    runAttempt q p env isLast =
      (.done (.error e),
        (runBody q p env).events ++
          closeEvents env.cursorCloseErr env.connCloseErr
            (runBody q p env).connOpened (runBody q p env).cursorOpened ++
          closeEvents env.cursorCloseErr env.connCloseErr
            (runBody q p env).connOpened (runBody q p env).cursorOpened) := by
  simp [runAttempt, h, hi]

theorem nextSetCalls_append (t1 t2 : List Ev) :
    nextSetCalls (t1 ++ t2) = nextSetCalls t1 ++ nextSetCalls t2 :=
  List.filterMap_append t1 t2 _

theorem nextSetCalls_replicate (n cid : Nat) :
    nextSetCalls (List.replicate n (Ev.nextSet cid)) = List.replicate n cid := by
  simp [nextSetCalls, List.filterMap_replicate]

theorem nextSetCalls_closeEvents (c1 c2 : Option Exc) (co : Option Nat) (cu : Bool) :
    nextSetCalls (closeEvents c1 c2 co cu) = [] := by
  cases co <;> cases cu <;> rfl

/-- The try body of a fully successful `fetch` attempt: the first result
set's rows come back, and the drain loop touched every extra result set. -/
theorem runBody_success (q : String) (p : List DBValue) (env : AttemptEnv)
    (cid : Nat) (cb : CursorBehavior) (rows : List Row)
    (hc : env.connRes = .ok cid) (hcb : env.cursorRes = .ok cb)
    (he : cb.execErr = none)
    (hfr : (if cb.with_rows then cb.firstFetch else Except.ok []) = Except.ok rows)
    (hd : cb.drainEnd = none) :
    runBody q p env =
      ⟨.ok rows,
        [Ev.getConn cid, Ev.openCursor cid, Ev.execQuery cid q p] ++
          List.replicate (cb.extras.length + 1) (Ev.nextSet cid),
        some cid, true⟩ := by
  simp [runBody, hc, hcb, he, hfr, hd, drain_events_eq, drain_fst, Except.map]

/-- The try body ignores the cleanup-error fields of the environment (they
matter only to the `except`/`finally` close calls). -/
theorem runBody_closeErr_irrelevant (q : String) (p : List DBValue)
    (env : AttemptEnv) (c1 c2 : Option Exc) :
    runBody q p { env with cursorCloseErr := c1, connCloseErr := c2 } = runBody q p env := by
  rcases env with ⟨connRes, cursorRes, d1, d2⟩
  rfl

/-- If the first attempt exits the loop, `fetch` returns its outcome. -/
theorem fetch_first_done (q : String) (p : List DBValue) (env1 env2 : AttemptEnv)
    (r : Except Exc (List Row)) (t : List Ev)
    (h : runAttempt q p env1 false = (.done r, t)) :
    fetch q p env1 env2 = (r, t) := by
  simp [fetch, fetchLoop, h]

/-- If the first attempt retries and the second exits, `fetch` returns the
second outcome after the concatenated traces. -/
theorem fetch_retry (q : String) (p : List DBValue) (env1 env2 : AttemptEnv)
    (e : Exc) (t1 : List Ev) (r : Except Exc (List Row)) (t2 : List Ev)
    (h1 : runAttempt q p env1 false = (.retry e, t1))
    (h2 : runAttempt q p env2 true = (.done r, t2)) :
    fetch q p env1 env2 = (r, t1 ++ t2) := by
  simp [fetch, fetchLoop, h1, h2]

/-- The final attempt never continues the loop. -/
theorem runAttempt_last_done (q : String) (p : List DBValue) (env : AttemptEnv) :
    ∃ r t, runAttempt q p env true = (.done r, t) := by
  cases hres : (runBody q p env).result with
  | ok rows => exact ⟨_, _, runAttempt_ok q p env true rows hres⟩
  | error e =>
      cases hi : e.isInterface with
      | true => exact ⟨_, _, runAttempt_interface_last q p env e hres hi⟩
      | false => exact ⟨_, _, runAttempt_other q p env true e hres hi⟩

theorem connsAcquired_sleep (n : Nat) : connsAcquired [Ev.sleep n] = [] := rfl

theorem connsReleased_sleep (n : Nat) : connsReleased [Ev.sleep n] = [] := rfl

theorem cursorsOpened_sleep (n : Nat) : cursorsOpened [Ev.sleep n] = [] := rfl

theorem cursorsClosed_sleep (n : Nat) : cursorsClosed [Ev.sleep n] = [] := rfl

/-- One attempt of `fetch` releases exactly the connections it acquired. -/
theorem connsFinset_runAttempt (q : String) (p : List DBValue) (env : AttemptEnv)
    (isLast : Bool) :
    (connsReleased (runAttempt q p env isLast).2).toFinset
      = (connsAcquired (runAttempt q p env isLast).2).toFinset := by
  cases hres : (runBody q p env).result with
  | ok rows =>
      rw [runAttempt_ok q p env isLast rows hres]
      simp only [connsReleased_append, connsAcquired_append,
        connsReleased_runBody, connsAcquired_runBody,
        connsReleased_closeEvents, connsAcquired_closeEvents, runBody_connOpened]
      cases env.connRes <;> simp
  | error e =>
      cases hi : e.isInterface with
      | true =>
          cases isLast with
          | true =>
              rw [runAttempt_interface_last q p env e hres hi]
              simp only [connsReleased_append, connsAcquired_append,
                connsReleased_runBody, connsAcquired_runBody,
                connsReleased_closeEvents, connsAcquired_closeEvents, runBody_connOpened]
              cases env.connRes <;> simp
          | false =>
              rw [runAttempt_interface_notLast q p env e hres hi]
              simp only [connsReleased_append, connsAcquired_append,
                connsReleased_runBody, connsAcquired_runBody,
                connsReleased_closeEvents, connsAcquired_closeEvents,
                connsReleased_sleep, connsAcquired_sleep, runBody_connOpened]
              cases env.connRes <;> simp
      | false =>
          rw [runAttempt_other q p env isLast e hres hi]
          simp only [connsReleased_append, connsAcquired_append,
            connsReleased_runBody, connsAcquired_runBody,
            connsReleased_closeEvents, connsAcquired_closeEvents, runBody_connOpened]
          cases env.connRes <;> simp

/-- One attempt of `fetch` closes exactly the cursors it opened. -/
theorem cursorsFinset_runAttempt (q : String) (p : List DBValue) (env : AttemptEnv)
    (isLast : Bool) :
    (cursorsClosed (runAttempt q p env isLast).2).toFinset
      = (cursorsOpened (runAttempt q p env isLast).2).toFinset := by
  cases hres : (runBody q p env).result with
  | ok rows =>
      rw [runAttempt_ok q p env isLast rows hres]
      simp only [cursorsClosed_append, cursorsOpened_append,
        cursorsClosed_runBody, cursorsOpened_runBody,
        cursorsClosed_closeEvents, cursorsOpened_closeEvents,
        runBody_connOpened, runBody_cursorOpened]
      cases env.connRes <;> cases env.cursorRes <;> simp
  | error e =>
      cases hi : e.isInterface with
      | true =>
          cases isLast with
          | true =>
              rw [runAttempt_interface_last q p env e hres hi]
              simp only [cursorsClosed_append, cursorsOpened_append,
                cursorsClosed_runBody, cursorsOpened_runBody,
                cursorsClosed_closeEvents, cursorsOpened_closeEvents,
                runBody_connOpened, runBody_cursorOpened]
              cases env.connRes <;> cases env.cursorRes <;> simp
          | false =>
              rw [runAttempt_interface_notLast q p env e hres hi]
              simp only [cursorsClosed_append, cursorsOpened_append,
                cursorsClosed_runBody, cursorsOpened_runBody,
                cursorsClosed_closeEvents, cursorsOpened_closeEvents,
                cursorsClosed_sleep, cursorsOpened_sleep,
                runBody_connOpened, runBody_cursorOpened]
              cases env.connRes <;> cases env.cursorRes <;> simp
      | false =>
          rw [runAttempt_other q p env isLast e hres hi]
          simp only [cursorsClosed_append, cursorsOpened_append,
            cursorsClosed_runBody, cursorsOpened_runBody,
            cursorsClosed_closeEvents, cursorsOpened_closeEvents,
            runBody_connOpened, runBody_cursorOpened]
          cases env.connRes <;> cases env.cursorRes <;> simp

/-- `fetch` releases exactly the connections it acquired. -/
theorem connsFinset_fetch (q : String) (p : List DBValue) (env1 env2 : AttemptEnv) :
    (connsReleased (fetch q p env1 env2).2).toFinset
      = (connsAcquired (fetch q p env1 env2).2).toFinset := by
  rcases hA : runAttempt q p env1 false with ⟨o1, t1⟩
  have h1 := connsFinset_runAttempt q p env1 false
  rw [hA] at h1
  cases o1 with
  | done r =>
      rw [fetch_first_done q p env1 env2 r t1 hA]
      exact h1
  | retry e =>
      obtain ⟨r, t2, hB⟩ := runAttempt_last_done q p env2
      have h2 := connsFinset_runAttempt q p env2 true
      rw [hB] at h2
      rw [fetch_retry q p env1 env2 e t1 r t2 hA hB]
      simp only [connsReleased_append, connsAcquired_append, List.toFinset_append]
      rw [h1, h2]

/-- `fetch` closes exactly the cursors it opened. -/
theorem cursorsFinset_fetch (q : String) (p : List DBValue) (env1 env2 : AttemptEnv) :
    (cursorsClosed (fetch q p env1 env2).2).toFinset
      = (cursorsOpened (fetch q p env1 env2).2).toFinset := by
  rcases hA : runAttempt q p env1 false with ⟨o1, t1⟩
  have h1 := cursorsFinset_runAttempt q p env1 false
  rw [hA] at h1
  cases o1 with
  | done r =>
      rw [fetch_first_done q p env1 env2 r t1 hA]
      exact h1
  | retry e =>
      obtain ⟨r, t2, hB⟩ := runAttempt_last_done q p env2
      have h2 := cursorsFinset_runAttempt q p env2 true
      rw [hB] at h2
      rw [fetch_retry q p env1 env2 e t1 r t2 hA hB]
      simp only [cursorsClosed_append, cursorsOpened_append, List.toFinset_append]
      rw [h1, h2]

/-! ### Claim theorems -/

/-- C1: if `fetch`'s first attempt fails with a transient connectivity
(interface) error, it closes the broken cursor and connection, sleeps 200 ms,
and retries exactly once; if the second attempt succeeds `fetch` returns the
second attempt's rows, and if the second attempt also fails transiently
`fetch` raises the second failure's error.  The trace equality shows the
close events before the sleep, the single sleep, and exactly one retry. -/
theorem fetch_transient_retry_once (q : String) (p : List DBValue)
    (env1 env2 : AttemptEnv) (e1 : Exc)
    (h1 : (runBody q p env1).result = .error e1)
    (hi1 : e1.isInterface = true) :
    (∀ rows, (runBody q p env2).result = .ok rows →
        fetch q p env1 env2 =
          (.ok rows,
            (runBody q p env1).events ++
              closeEvents env1.cursorCloseErr env1.connCloseErr
                (runBody q p env1).connOpened (runBody q p env1).cursorOpened ++
              [Ev.sleep 200] ++
              closeEvents env1.cursorCloseErr env1.connCloseErr
                (runBody q p env1).connOpened (runBody q p env1).cursorOpened ++
              ((runBody q p env2).events ++
                closeEvents env2.cursorCloseErr env2.connCloseErr
                  (runBody q p env2).connOpened (runBody q p env2).cursorOpened)))
    ∧ (∀ e2, (runBody q p env2).result = .error e2 → e2.isInterface = true →
        (fetch q p env1 env2).1 = .error e2) := by
  constructor
  · intro rows h2
    rw [fetch_retry q p env1 env2 e1 _ _ _
      (runAttempt_interface_notLast q p env1 e1 h1 hi1)
      (runAttempt_ok q p env2 true rows h2)]
  · intro e2 h2 hi2
    rw [fetch_retry q p env1 env2 e1 _ _ _
      (runAttempt_interface_notLast q p env1 e1 h1 hi1)
      (runAttempt_interface_last q p env2 e2 h2 hi2)]

/-- Witness for C1: with a transient failure injected on the first attempt
only, `fetch` returns the second attempt's rows; with transient failures on
both attempts it raises the second failure's error. -/
theorem fetch_transient_retry_once_witness :
    (fetch sampleQuery [] envTransient envSuccess).1 = .ok sampleRows ∧
    (fetch sampleQuery [] envTransient envTransient2).1 = .error (.interfaceError 6) := by
  constructor
  · rw [(fetch_transient_retry_once sampleQuery [] envTransient envSuccess
      (.interfaceError 5) rfl rfl).1 sampleRows rfl]
  · exact (fetch_transient_retry_once sampleQuery [] envTransient envTransient2
      (.interfaceError 5) rfl rfl).2 (.interfaceError 6) rfl rfl

/-- C2: for a statement producing one or more result sets, `fetch` returns
exactly the first result set's rows (as column-name-to-value mappings, in
the database's row order) and calls `nextset()` until every additional
result set is consumed: one call per extra set, plus the terminating one. -/
theorem fetch_first_result_set_drained (q : String) (p : List DBValue)
    (env1 env2 : AttemptEnv) (cid : Nat) (cb : CursorBehavior) (rows : List Row)
    (hc : env1.connRes = .ok cid) (hcb : env1.cursorRes = .ok cb)
    (he : cb.execErr = none) (hw : cb.with_rows = true)
    (hf : cb.firstFetch = .ok rows) (hd : cb.drainEnd = none) :
    (fetch q p env1 env2).1 = .ok rows ∧
    nextSetCalls (fetch q p env1 env2).2 = List.replicate (cb.extras.length + 1) cid := by
  have hbody := runBody_success q p env1 cid cb rows hc hcb he (by rw [hw]; exact hf) hd
  have hA := runAttempt_ok q p env1 false rows (by rw [hbody])
  rw [fetch_first_done q p env1 env2 _ _ hA]
  constructor
  · rfl
  · simp only [hbody, nextSetCalls_append, nextSetCalls_replicate, nextSetCalls_closeEvents]
    simp [nextSetCalls]

/-- Witness for C2: a `CALL`-style statement with one extra result set; the
first set's rows come back and `nextset()` is called twice. -/
theorem fetch_first_result_set_drained_witness :
    (fetch sampleQuery [] envSuccess envSuccess).1 = .ok sampleRows ∧
    nextSetCalls (fetch sampleQuery [] envSuccess envSuccess).2 = List.replicate 2 1 :=
  fetch_first_result_set_drained sampleQuery [] envSuccess envSuccess 1 cbSuccess
    sampleRows rfl rfl rfl rfl rfl rfl

/-- C3: `execute_and_get_id` issues the insert and the
`SELECT LAST_INSERT_ID()` follow-up on the same single connection (the trace
has exactly one pool checkout, and both `execQuery` events carry the same
connection id), returns the identifier from the follow-up's row, and returns
`none` when no row (or an empty row) is available. -/
theorem execute_and_get_id_single_connection (q : String) (p : List DBValue)
    (env : ExecIdEnv) (cid : Nat) (row : Option (List Int))
    (hc : env.connRes = .ok cid) (hcur : env.cursorRes = .ok ())
    (hins : env.insertErr = none) (hid : env.idQueryErr = none)
    (hrow : env.fetchoneRes = .ok row) :
    execute_and_get_id q p env =
      (Except.ok (idFromRow row),
       [Ev.getConn cid, Ev.openCursor cid, Ev.execQuery cid q p,
        Ev.execQuery cid lastInsertIdQuery [],
        Ev.closeCursor cid, Ev.closeConn cid]) ∧
    connsAcquired (execute_and_get_id q p env).2 = [cid] := by
  have hmain : execute_and_get_id q p env =
      (Except.ok (idFromRow row),
       [Ev.getConn cid, Ev.openCursor cid, Ev.execQuery cid q p,
        Ev.execQuery cid lastInsertIdQuery [],
        Ev.closeCursor cid, Ev.closeConn cid]) := by
    simp [execute_and_get_id, hc, hcur, hins, hid, hrow, closeEvents, swallowClose]
  refine ⟨hmain, ?_⟩
  rw [hmain]
  rfl

/-- Witness for C3: an insert generating id 42 returns `some 42`; an insert
for which `fetchone` yields no row returns `none`. -/
theorem execute_and_get_id_single_connection_witness :
    (execute_and_get_id insertQuery [] ienvSample).1 = .ok (some 42) ∧
    (execute_and_get_id insertQuery [] ienvNoId).1 = .ok none := by
  constructor
  · rw [(execute_and_get_id_single_connection insertQuery [] ienvSample 8 (some [42])
      rfl rfl rfl rfl rfl).1]
    rfl
  · rw [(execute_and_get_id_single_connection insertQuery [] ienvNoId 8 none
      rfl rfl rfl rfl rfl).1]
    rfl

/-- C4: `execute` returns exactly the row count the statement changed
(`cursor.rowcount`), and the connection it acquired is released afterward on
every exit path. -/
theorem execute_rowcount_and_release (q : String) (p : List DBValue)
    (env : ExecEnv) (cid : Nat) (hc : env.connRes = .ok cid) :
    (env.cursorRes = .ok () → env.execErr = none →
        (execute q p env).1 = .ok env.rowcount) ∧
    Ev.closeConn cid ∈ (execute q p env).2 := by
  constructor
  · intro hcur he
    simp [execute, hc, hcur, he, closeEvents, swallowClose]
  · cases hcur : env.cursorRes with
    | error e => simp [execute, hc, hcur, closeEvents, swallowClose]
    | ok u =>
        cases he : env.execErr <;>
          simp [execute, hc, hcur, he, closeEvents, swallowClose]

/-- Witness for C4: an update matching 3 rows returns 3, one matching 0
returns 0, and the acquired connection is closed. -/
theorem execute_rowcount_and_release_witness :
    (execute updateQuery [] eenvSample).1 = .ok 3 ∧
    (execute updateQuery [] eenvZero).1 = .ok 0 ∧
    Ev.closeConn 7 ∈ (execute updateQuery [] eenvSample).2 := by
  refine ⟨?_, ?_, ?_⟩
  · exact (execute_rowcount_and_release updateQuery [] eenvSample 7 rfl).1 rfl rfl
  · exact (execute_rowcount_and_release updateQuery [] eenvZero 7 rfl).1 rfl rfl
  · exact (execute_rowcount_and_release updateQuery [] eenvSample 7 rfl).2

/-- C5: on every exit path of `fetch`, `execute` and `execute_and_get_id`,
the set of released connections equals the set of acquired connections and
the set of closed cursors equals the set of opened cursors, so their
numbers agree — no resource leaks. -/
theorem executor_no_resource_leak (q : String) (p : List DBValue)
    (env1 env2 : AttemptEnv) (eenv : ExecEnv) (ienv : ExecIdEnv) :
    ((connsReleased (fetch q p env1 env2).2).toFinset
        = (connsAcquired (fetch q p env1 env2).2).toFinset
      ∧ (cursorsClosed (fetch q p env1 env2).2).toFinset
        = (cursorsOpened (fetch q p env1 env2).2).toFinset
      ∧ (connsReleased (fetch q p env1 env2).2).toFinset.card
        = (connsAcquired (fetch q p env1 env2).2).toFinset.card)
    ∧ ((connsReleased (execute q p eenv).2).toFinset
        = (connsAcquired (execute q p eenv).2).toFinset
      ∧ (cursorsClosed (execute q p eenv).2).toFinset
        = (cursorsOpened (execute q p eenv).2).toFinset
      ∧ (connsReleased (execute q p eenv).2).toFinset.card
        = (connsAcquired (execute q p eenv).2).toFinset.card)
    ∧ ((connsReleased (execute_and_get_id q p ienv).2).toFinset
        = (connsAcquired (execute_and_get_id q p ienv).2).toFinset
      ∧ (cursorsClosed (execute_and_get_id q p ienv).2).toFinset
        = (cursorsOpened (execute_and_get_id q p ienv).2).toFinset
      ∧ (connsReleased (execute_and_get_id q p ienv).2).toFinset.card
        = (connsAcquired (execute_and_get_id q p ienv).2).toFinset.card) := by
  refine ⟨⟨connsFinset_fetch q p env1 env2, cursorsFinset_fetch q p env1 env2,
      congrArg Finset.card (connsFinset_fetch q p env1 env2)⟩, ⟨?_, ?_, ?_⟩, ⟨?_, ?_, ?_⟩⟩
  case refine_1 =>
    cases hc : eenv.connRes with
    | error e => simp [execute, hc, closeEvents, connsReleased, connsAcquired]
    | ok cid =>
        cases hcur : eenv.cursorRes with
        | error e =>
            simp [execute, hc, hcur, closeEvents, swallowClose, connsReleased, connsAcquired]
        | ok u =>
            cases he : eenv.execErr <;>
              simp [execute, hc, hcur, he, closeEvents, swallowClose,
                connsReleased, connsAcquired]
  case refine_2 =>
    cases hc : eenv.connRes with
    | error e => simp [execute, hc, closeEvents, cursorsClosed, cursorsOpened]
    | ok cid =>
        cases hcur : eenv.cursorRes with
        | error e =>
            simp [execute, hc, hcur, closeEvents, swallowClose, cursorsClosed, cursorsOpened]
        | ok u =>
            cases he : eenv.execErr <;>
              simp [execute, hc, hcur, he, closeEvents, swallowClose,
                cursorsClosed, cursorsOpened]
  case refine_3 =>
    cases hc : eenv.connRes with
    | error e => simp [execute, hc, closeEvents, connsReleased, connsAcquired]
    | ok cid =>
        cases hcur : eenv.cursorRes with
        | error e =>
            simp [execute, hc, hcur, closeEvents, swallowClose, connsReleased, connsAcquired]
        | ok u =>
            cases he : eenv.execErr <;>
              simp [execute, hc, hcur, he, closeEvents, swallowClose,
                connsReleased, connsAcquired]
  case refine_4 =>
    cases hc : ienv.connRes with
    | error e => simp [execute_and_get_id, hc, closeEvents, connsReleased, connsAcquired]
    | ok cid =>
        cases hcur : ienv.cursorRes with
        | error e =>
            simp [execute_and_get_id, hc, hcur, closeEvents, swallowClose,
              connsReleased, connsAcquired]
        | ok u =>
            cases hins : ienv.insertErr with
            | some e =>
                simp [execute_and_get_id, hc, hcur, hins, closeEvents, swallowClose,
                  connsReleased, connsAcquired]
            | none =>
                cases hid : ienv.idQueryErr with
                | some e =>
                    simp [execute_and_get_id, hc, hcur, hins, hid, closeEvents,
                      swallowClose, connsReleased, connsAcquired]
                | none =>
                    cases hrow : ienv.fetchoneRes <;>
                      simp [execute_and_get_id, hc, hcur, hins, hid, hrow, closeEvents,
                        swallowClose, connsReleased, connsAcquired]
  case refine_5 =>
    cases hc : ienv.connRes with
    | error e => simp [execute_and_get_id, hc, closeEvents, cursorsClosed, cursorsOpened]
    | ok cid =>
        cases hcur : ienv.cursorRes with
        | error e =>
            simp [execute_and_get_id, hc, hcur, closeEvents, swallowClose,
              cursorsClosed, cursorsOpened]
        | ok u =>
            cases hins : ienv.insertErr with
            | some e =>
                simp [execute_and_get_id, hc, hcur, hins, closeEvents, swallowClose,
                  cursorsClosed, cursorsOpened]
            | none =>
                cases hid : ienv.idQueryErr with
                | some e =>
                    simp [execute_and_get_id, hc, hcur, hins, hid, closeEvents,
                      swallowClose, cursorsClosed, cursorsOpened]
                | none =>
                    cases hrow : ienv.fetchoneRes <;>
                      simp [execute_and_get_id, hc, hcur, hins, hid, hrow, closeEvents,
                        swallowClose, cursorsClosed, cursorsOpened]
  case refine_6 =>
    cases hc : ienv.connRes with
    | error e => simp [execute_and_get_id, hc, closeEvents, connsReleased, connsAcquired]
    | ok cid =>
        cases hcur : ienv.cursorRes with
        | error e =>
            simp [execute_and_get_id, hc, hcur, closeEvents, swallowClose,
              connsReleased, connsAcquired]
        | ok u =>
            cases hins : ienv.insertErr with
            | some e =>
                simp [execute_and_get_id, hc, hcur, hins, closeEvents, swallowClose,
                  connsReleased, connsAcquired]
            | none =>
                cases hid : ienv.idQueryErr with
                | some e =>
                    simp [execute_and_get_id, hc, hcur, hins, hid, closeEvents,
                      swallowClose, connsReleased, connsAcquired]
                | none =>
                    cases hrow : ienv.fetchoneRes <;>
                      simp [execute_and_get_id, hc, hcur, hins, hid, hrow, closeEvents,
                        swallowClose, connsReleased, connsAcquired]

/-- C6: a non-transient (non-interface) failure in `fetch` is propagated
immediately: on the first attempt the call ends with that exact error after
the cleanup closes, with no sleep anywhere in the trace and no second
attempt; and after a transient first attempt, a non-transient second failure
is likewise propagated as-is. -/
theorem fetch_nontransient_immediate (q : String) (p : List DBValue)
    (env1 env2 : AttemptEnv) :
    (∀ e, (runBody q p env1).result = .error e → e.isInterface = false →
        fetch q p env1 env2 =
          (.error e,
            (runBody q p env1).events ++
              closeEvents env1.cursorCloseErr env1.connCloseErr
                (runBody q p env1).connOpened (runBody q p env1).cursorOpened ++
              closeEvents env1.cursorCloseErr env1.connCloseErr
                (runBody q p env1).connOpened (runBody q p env1).cursorOpened) ∧
        Ev.sleep 200 ∉ (fetch q p env1 env2).2)
    ∧ (∀ e1 e2, (runBody q p env1).result = .error e1 → e1.isInterface = true →
        (runBody q p env2).result = .error e2 → e2.isInterface = false →
        (fetch q p env1 env2).1 = .error e2) := by
  constructor
  · intro e h hi
    have hA := runAttempt_other q p env1 false e h hi
    have hf := fetch_first_done q p env1 env2 _ _ hA
    refine ⟨hf, ?_⟩
    rw [hf]
    intro hmem
    rcases List.mem_append.mp hmem with h1 | h2
    · rcases List.mem_append.mp h1 with h3 | h4
      · exact sleep_not_mem_runBody q p env1 200 h3
      · exact sleep_not_mem_closeEvents _ _ _ _ 200 h4
    · exact sleep_not_mem_closeEvents _ _ _ _ 200 h2
  · intro e1 e2 h1 hi1 h2 hi2
    rw [fetch_retry q p env1 env2 e1 _ _ _
      (runAttempt_interface_notLast q p env1 e1 h1 hi1)
      (runAttempt_other q p env2 true e2 h2 hi2)]

/-- Witness for C6: a statement error on the first attempt propagates
unchanged with no sleeping. -/
theorem fetch_nontransient_immediate_witness :
    (fetch sampleQuery [] envStatementError envSuccess).1 = .error (.otherError 8) ∧
    Ev.sleep 200 ∉ (fetch sampleQuery [] envStatementError envSuccess).2 := by
  have h := (fetch_nontransient_immediate sampleQuery [] envStatementError envSuccess).1
    (.otherError 8) rfl rfl
  exact ⟨by rw [h.1], h.2⟩

/-- C7: transient connectivity errors are retried only in `fetch`: when
`execute` or `execute_and_get_id` hits an `InterfaceError` on its single
attempt, the error propagates to the caller and the trace shows exactly one
pool checkout, the cleanup closes, and no sleep — no retry. -/
theorem writes_not_retried (q : String) (p : List DBValue)
    (eenv : ExecEnv) (ienv : ExecIdEnv) :
    (∀ cid e, eenv.connRes = .ok cid → eenv.cursorRes = .ok () →
        eenv.execErr = some e → e.isInterface = true →
        execute q p eenv =
          (.error e, [Ev.getConn cid, Ev.openCursor cid, Ev.execQuery cid q p,
                      Ev.closeCursor cid, Ev.closeConn cid]))
    ∧ (∀ cid e, ienv.connRes = .ok cid → ienv.cursorRes = .ok () →
        ienv.insertErr = some e → e.isInterface = true →
        execute_and_get_id q p ienv =
          (.error e, [Ev.getConn cid, Ev.openCursor cid, Ev.execQuery cid q p,
                      Ev.closeCursor cid, Ev.closeConn cid])) := by
  constructor
  · intro cid e hc hcur he hi
    simp [execute, hc, hcur, he, closeEvents, swallowClose]
  · intro cid e hc hcur he hi
    simp [execute_and_get_id, hc, hcur, he, closeEvents, swallowClose]

/-- Witness for C7: transient failures in `execute` and in
`execute_and_get_id` propagate without retry. -/
theorem writes_not_retried_witness :
    (execute updateQuery [] eenvTransient).1 = .error (.interfaceError 2) ∧
    (execute_and_get_id updateQuery [] ienvTransient).1 = .error (.interfaceError 3) := by
  constructor
  · rw [(writes_not_retried updateQuery [] eenvTransient ienvTransient).1 7
      (.interfaceError 2) rfl rfl rfl rfl]
  · rw [(writes_not_retried updateQuery [] eenvTransient ienvTransient).2 8
      (.interfaceError 3) rfl rfl rfl rfl]

/-- C8: errors raised by `cursor.close()` / `conn.close()` during teardown
are swallowed: whatever the cleanup-error fields are, a failing `fetch`,
`execute` or `execute_and_get_id` still propagates its original error. -/
theorem cleanup_errors_never_mask (q : String) (p : List DBValue)
    (env1 env2 : AttemptEnv) (eenv : ExecEnv) (ienv : ExecIdEnv) (c1 c2 : Option Exc) :
    (∀ e, (runBody q p env1).result = .error e → e.isInterface = false →
        (fetch q p { env1 with cursorCloseErr := c1, connCloseErr := c2 } env2).1
          = .error e)
    ∧ (∀ cid e, eenv.connRes = .ok cid → eenv.cursorRes = .ok () →
        eenv.execErr = some e →
        (execute q p { eenv with cursorCloseErr := c1, connCloseErr := c2 }).1
          = .error e)
    ∧ (∀ cid e, ienv.connRes = .ok cid → ienv.cursorRes = .ok () →
        ienv.insertErr = some e →
        (execute_and_get_id q p { ienv with cursorCloseErr := c1, connCloseErr := c2 }).1
          = .error e) := by
  refine ⟨?_, ?_, ?_⟩
  · intro e h hi
    have h2 : (runBody q p { env1 with cursorCloseErr := c1, connCloseErr := c2 }).result
        = .error e := by
      rw [runBody_closeErr_irrelevant]
      exact h
    have hA := runAttempt_other q p _ false e h2 hi
    rw [fetch_first_done q p _ env2 _ _ hA]
  · intro cid e hc hcur he
    simp [execute, hc, hcur, he, closeEvents, swallowClose]
  · intro cid e hc hcur he
    simp [execute_and_get_id, hc, hcur, he, closeEvents, swallowClose]

/-- Witness for C8: with close calls that themselves raise, the original
statement error is still the one propagated. -/
theorem cleanup_errors_never_mask_witness :
    (fetch sampleQuery []
      { envStatementError with
          cursorCloseErr := some (.otherError 99),
          connCloseErr := some (.otherError 98) } envSuccess).1
      = .error (.otherError 8) :=
  (cleanup_errors_never_mask sampleQuery [] envStatementError envSuccess eenvSample
    ienvSample (some (.otherError 99)) (some (.otherError 98))).1 (.otherError 8) rfl rfl

/-- C9: a statement that executes successfully but produces no result set
(`with_rows` false) makes `fetch` return the empty list. -/
theorem fetch_empty_on_no_resultset (q : String) (p : List DBValue)
    (env1 env2 : AttemptEnv) (cid : Nat) (cb : CursorBehavior)
    (hc : env1.connRes = .ok cid) (hcb : env1.cursorRes = .ok cb)
    (he : cb.execErr = none) (hw : cb.with_rows = false) (hd : cb.drainEnd = none) :
    (fetch q p env1 env2).1 = .ok [] := by
  have hbody := runBody_success q p env1 cid cb [] hc hcb he (by simp [hw]) hd
  have hA := runAttempt_ok q p env1 false [] (by rw [hbody])
  rw [fetch_first_done q p env1 env2 _ _ hA]

/-- Witness for C9: a no-result-set statement yields `[]`. -/
theorem fetch_empty_on_no_resultset_witness :
    (fetch sampleQuery [] envNoRows envSuccess).1 = .ok [] :=
  fetch_empty_on_no_resultset sampleQuery [] envNoRows envSuccess 4 cbNoRows
    rfl rfl rfl rfl rfl

/-- C10: once the first result set is fetched successfully, any exception
raised while draining a later result set is swallowed: whatever the extra
result sets do, `fetch` still returns the first set's rows unchanged. -/
theorem fetch_drain_exception_swallowed (q : String) (p : List DBValue)
    (env2 : AttemptEnv) (cid : Nat) (rows : List Row) (c1 c2 : Option Exc)
    (steps : List DrainStep) :
    (fetch q p ⟨.ok cid, .ok ⟨none, true, .ok rows, steps, none⟩, c1, c2⟩ env2).1
      = .ok rows := by
  have hbody := runBody_success q p ⟨.ok cid, .ok ⟨none, true, .ok rows, steps, none⟩, c1, c2⟩
    cid ⟨none, true, .ok rows, steps, none⟩ rows rfl rfl rfl rfl rfl
  have hA := runAttempt_ok q p _ false rows (by rw [hbody])
  rw [fetch_first_done q p _ env2 _ _ hA]

end Backend
